import Mathlib

/-!
Shallow embedding of the session-lifecycle client in
src/ai_dm_app/cli_client.py (class DnDClient and the main interaction
loop). Network effects are made explicit: every remote call consumes a
prescribed outcome (either a network-level error, as raised by the
requests library, or an HTTP response with a status code and a parsed
JSON body, where a body of none stands for an unparseable payload).
Operations additionally report how many network calls they performed.
Modelling note: a malformed JSON body makes response.json() raise
requests.exceptions.JSONDecodeError, a subclass of RequestException,
so it is caught by the same handlers as connection errors.
-/

/-- Outcome of one HTTP request made through the requests library:
either the request raised a RequestException at network level, or an
HTTP response arrived with a status code and a JSON body (a none body
means the payload could not be parsed as JSON). -/
inductive ReqOutcome (α : Type) where
  | netError
  | response (status : Nat) (body : Option α)
  deriving DecidableEq

/-- Whether response.raise_for_status() raises: it raises HTTPError
exactly for client-error (4xx) and server-error (5xx) status codes. -/
def raisesForStatus (status : Nat) : Prop :=
  400 ≤ status ∧ status < 600

instance (status : Nat) : Decidable (raisesForStatus status) := by
  unfold raisesForStatus; infer_instance

/-- One record of the JSON array returned by GET /campaigns/{id}/sessions. -/
structure Session where
  session_id : Int
  created_at : String
  deriving DecidableEq

/-- Parsed JSON body of POST /sessions/start; the field is an Option
because the code indexes it with ["session_id"], which raises KeyError
when the key is absent. -/
structure CreateBody where
  session_id : Option Int
  deriving DecidableEq

/-- Parsed JSON body of POST /sessions/{id}/interact; the code reads it
with .get("dm_response", ""), so absence is tolerated. -/
structure InteractBody where
  dm_response : Option String
  deriving DecidableEq

/-- Parsed JSON body of POST /sessions/{id}/end; the code reads it with
.get("recap"), so absence yields None. -/
structure EndBody where
  recap : Option String
  deriving DecidableEq

/-- The mutable identity fields of DnDClient: campaign_id, world_id and
session_id, each Optional[int] initialized to None in the constructor.
The credential and base address do not affect the control flow modelled
here and are omitted. -/
structure DnDClient where
  campaign_id : Option Int
  world_id : Option Int
  session_id : Option Int
  deriving DecidableEq

/-- Python truthiness of an Optional[int] value: None and 0 are falsy,
every other integer is truthy. -/
def pyTruthy : Option Int → Bool
  | none => false
  | some n => n != 0

/-- Python truthiness of an Optional[str] value: None and the empty
string are falsy. Used by the interaction loop when it decides whether to render a DM response. -/
def pyTruthyStr : Option String → Bool
  | none => false
  | some s => s != ""

/-- DnDClient.check_server: issues one GET to the base URL and returns
True unless the request raised a RequestException. The response status
and body are never inspected (there is no raise_for_status call). -/
def check_server (o : ReqOutcome Unit) : Bool :=
  match o with
  | .netError => false
  | .response _ _ => true

/-- The while loop of DnDClient.wait_for_server, with the probed outcomes
abstracted as a function of elapsed time. Time is modelled discretely:
the probe itself is instantaneous and each failed iteration sleeps 5
seconds. The argument t is the elapsed time at the head of the loop;
the result pairs the returned Bool with the elapsed time at return. -/
def wait_for_server_loop (timeout : Int) (probe : Int → Bool) (t : Int) : Bool × Int :=
  if t < timeout then
    if probe t then (true, t)
    else wait_for_server_loop timeout probe (t + 5)
  else (false, t)
termination_by (timeout - t).toNat
decreasing_by
  simp_wf
  omega

/-- DnDClient.wait_for_server(timeout): runs the polling loop starting
from elapsed time 0. The default timeout in the source is 30. -/
def wait_for_server (probe : Int → Bool) (timeout : Int) : Bool × Int :=
  wait_for_server_loop timeout probe 0

/-- DnDClient.list_sessions: GET the session list of the campaign; any
RequestException (network error, raise_for_status on 4xx/5xx, JSON
decode error) is caught and yields the empty list; otherwise the parsed
array is returned unchanged. -/
def list_sessions (o : ReqOutcome (List Session)) : List Session :=
  match o with
  | .netError => []
  | .response status body =>
    if raisesForStatus status then []
    else
      match body with
      | none => []
      | some sessions => sessions

/-- DnDClient.load_session: if check_server fails and wait_for_server
also fails, return False leaving the state untouched; otherwise set all
three identity fields from the caller-supplied values and return True.
checkO is the outcome of the initial probe and waitResult the result of
the bounded wait (only consulted when the probe fails). -/
def load_session (c : DnDClient) (session_id campaign_id world_id : Int)
    (checkO : ReqOutcome Unit) (waitResult : Bool) : Bool × DnDClient :=
  if check_server checkO = false ∧ waitResult = false then (false, c)
  else
    (true, { campaign_id := some campaign_id
             world_id := some world_id
             session_id := some session_id })

/-- DnDClient.start_session: after the same reachability gate as
load_session, the code first assigns campaign_id and world_id, then
POSTs /sessions/start. A RequestException (network error, 4xx/5xx via
raise_for_status, JSON decode error) is caught and yields False with
those two fields already overwritten. When the parsed body lacks the
"session_id" key, the subscript raises KeyError, which the except
clause does not catch: this uncaught propagation is modelled as
Except.error carrying the state at the point of the raise. -/
def start_session (c : DnDClient) (campaign_id world_id : Int)
    (checkO : ReqOutcome Unit) (waitResult : Bool)
    (createO : ReqOutcome CreateBody) : Except DnDClient (Bool × DnDClient) :=
  if check_server checkO = false ∧ waitResult = false then .ok (false, c)
  else
    let c1 : DnDClient :=
      { c with campaign_id := some campaign_id, world_id := some world_id }
    match createO with
    | .netError => .ok (false, c1)
    | .response status body =>
      if raisesForStatus status then .ok (false, c1)
      else
        match body with
        | none => .ok (false, c1)
        | some b =>
          match b.session_id with
          | none => .error c1
          | some sid => .ok (true, { c1 with session_id := some sid })

/-- The character-level effect of the Python call
str.replace("<br>", "\n"): scan left to right, replacing each
non-overlapping occurrence of the four characters of the marker by a
single newline. -/
def replaceBr : List Char → List Char
  | '<' :: 'b' :: 'r' :: '>' :: rest => '\n' :: replaceBr rest
  | c :: rest => c :: replaceBr rest
  | [] => []

/-- String wrapper of replaceBr, the embedding of
s.replace("<br>", "\n") as applied in DnDClient.send_message. -/
def pyReplaceBrNl (s : String) : String :=
  ⟨replaceBr s.data⟩

/-- DnDClient.send_message: if any of the three identity fields is
falsy, return None with no network call. Otherwise POST the interact
request (one call); on success return the dm_response field (default
empty string) with the line-break marker normalized; on any
RequestException the handler additionally probes check_server (a second
network call) before returning None. The pair returned is (result,
number of network calls performed). The user input only populates the
request body and does not influence the client-side control flow. -/
def send_message (c : DnDClient) (user_input : String)
    (o : ReqOutcome InteractBody) : Option String × Nat :=
  if (pyTruthy c.campaign_id && pyTruthy c.world_id && pyTruthy c.session_id) = false then
    (none, 0)
  else
    match o with
    | .netError => (none, 2)
    | .response status body =>
      if raisesForStatus status then (none, 2)
      else
        match body with
        | none => (none, 2)
        | some b => (some (pyReplaceBrNl (b.dm_response.getD "")), 1)

/-- DnDClient.end_session: if session_id is falsy, return None with no
network call; otherwise POST /sessions/{id}/end (one call) and return
the recap field on success, or None when a RequestException was caught.
No identity field is ever written. The triple returned is
(recap, state after the call, number of network calls performed). -/
def end_session (c : DnDClient) (o : ReqOutcome EndBody) :
    Option String × DnDClient × Nat :=
  if pyTruthy c.session_id = false then (none, c, 0)
  else
    match o with
    | .netError => (none, c, 1)
    | .response status body =>
      if raisesForStatus status then (none, c, 1)
      else
        match body with
        | none => (none, c, 1)
        | some b => (b.recap, c, 1)

/-- Observable actions of the main interaction loop, in order: one send
per dispatched user input, and the single end_session finalization. -/
inductive MainAction where
  | send (input : String)
  | endCall
  deriving DecidableEq

/-- Python str.lower() at the character-list level (ASCII case
mapping, which covers the tokens compared against). -/
def pyToLower (s : String) : String :=
  ⟨s.data.map Char.toLower⟩

/-- Python str.strip() with no argument: remove leading and trailing
whitespace. -/
def pyStrip (s : String) : String :=
  ⟨((s.data.dropWhile Char.isWhitespace).reverse.dropWhile
      Char.isWhitespace).reverse⟩

/-- The exit test of the main loop: the stripped input, lowercased,
equals "exit" or "quit". -/
def isQuit (s : String) : Bool :=
  pyToLower (pyStrip s) == "exit" || pyToLower (pyStrip s) == "quit"

/-- The main chat loop of main(), as the trace of actions it performs
on a given sequence of user inputs: each input is stripped; a quit/exit
token breaks out of the loop; otherwise the stripped input is sent.
Input exhaustion (EOF) and the interrupt/error paths all break as well.
Every exit path falls through to the single end_session call. -/
def main_loop_trace : List String → List MainAction
  | [] => [.endCall]
  | i :: rest =>
    if isQuit i then [.endCall]
    else .send (pyStrip i) :: main_loop_trace rest

/-- C3 counterexample: the claim says a non-2xx status or malformed
response makes probeOnce report unreachable (false). The code never
inspects the response: a 500 status with an unparseable body still
yields true. -/
theorem check_server_non2xx_counterexample :
    check_server (ReqOutcome.response 500 none) = true := rfl

/-- C3 (amended): probeOnce performs a single call and returns false
exactly when the request raised at network level; any received HTTP
response, whatever its status or body, yields true, and no failure is
ever propagated. -/
theorem check_server_false_iff_netError (o : ReqOutcome Unit) :
    check_server o = false ↔ o = ReqOutcome.netError := by
  cases o <;> simp [check_server]

/-- C4: whenever at least one identity field is unset, send_message
returns none and performs zero network calls, for every user input and
every prescribed outcome of the (never issued) interact request. -/
theorem send_message_unset_no_call (c : DnDClient) (user_input : String)
    (o : ReqOutcome InteractBody)
    (h : c.campaign_id = none ∨ c.world_id = none ∨ c.session_id = none) :
    send_message c user_input o = (none, 0) := by
  rcases h with h | h | h <;> simp [send_message, h, pyTruthy]

/-- C4 witness: a client with no campaign id rejects an interact
request locally. -/
theorem send_message_unset_no_call_witness :
    send_message ⟨none, some 1, some 7⟩ "hello" ReqOutcome.netError = (none, 0) :=
  send_message_unset_no_call ⟨none, some 1, some 7⟩ "hello" ReqOutcome.netError
    (Or.inl rfl)

/-- C5: when the initial probe fails and the bounded wait times out,
start_session returns False and the controller state is exactly the
state it started from; in particular a fully unset identity stays
fully unset. -/
theorem start_session_unreachable_noop (c : DnDClient) (cid wid : Int)
    (checkO : ReqOutcome Unit) (waitResult : Bool)
    (createO : ReqOutcome CreateBody)
    (h1 : check_server checkO = false) (h2 : waitResult = false) :
    start_session c cid wid checkO waitResult createO = .ok (false, c) := by
  simp [start_session, h1, h2]

/-- C5 witness: a fresh client against a dead service: the probe
raises, the bounded wait reports failure, and the identity stays
fully unset. -/
theorem start_session_unreachable_noop_witness :
    start_session ⟨none, none, none⟩ 1 1 ReqOutcome.netError false
      ReqOutcome.netError = .ok (false, ⟨none, none, none⟩) :=
  start_session_unreachable_noop ⟨none, none, none⟩ 1 1 ReqOutcome.netError
    false ReqOutcome.netError rfl rfl

/-- C2 counterexample: a fresh (fully unset) client whose probe
succeeds but whose create call raises at network level ends with
campaign_id and world_id set while session_id is still unset — the
identity is partially set and the state did not remain uninitialized. -/
theorem start_session_partial_identity_counterexample :
    start_session ⟨none, none, none⟩ 1 1 (ReqOutcome.response 200 (some ()))
        false ReqOutcome.netError
      = .ok (false, ⟨some 1, some 1, none⟩) := rfl

/-- C2 (amended): the all-or-nothing identity invariant fails: when the
reachability gate passes but the create call raises a request error,
start_session returns False having already overwritten campaign_id and
world_id with the requested values, while session_id keeps its previous
value — unset for a fresh controller. -/
theorem start_session_create_failure_sets_ids (c : DnDClient) (cid wid : Int)
    (checkO : ReqOutcome Unit) (waitResult : Bool)
    (hreach : check_server checkO = true ∨ waitResult = true) :
    start_session c cid wid checkO waitResult ReqOutcome.netError
      = .ok (false, { c with campaign_id := some cid, world_id := some wid }) := by
  rcases hreach with h | h <;> simp [start_session, h]

/-- C2 amended witness: instantiates the partial-identity result for a
fresh client with a succeeding probe. -/
theorem start_session_create_failure_sets_ids_witness :
    start_session ⟨none, none, none⟩ 1 1 (ReqOutcome.response 200 (some ()))
        false ReqOutcome.netError
      = .ok (false, { campaign_id := some 1, world_id := some 1, session_id := none }) :=
  start_session_create_failure_sets_ids ⟨none, none, none⟩ 1 1
    (ReqOutcome.response 200 (some ())) false (Or.inl rfl)

/-- C1 counterexample: with an active session and a successful end call
returning a recap, end_session leaves session_id set (nothing is
cleared), and a second consecutive end_session on the resulting state
performs one network call and returns the recap again instead of
returning none without a call. -/
theorem end_session_not_cleared_counterexample :
    (end_session ⟨some 1, some 1, some 7⟩
        (ReqOutcome.response 200 (some ⟨some "bye"⟩))).2.1.session_id = some 7 ∧
    (end_session (end_session ⟨some 1, some 1, some 7⟩
          (ReqOutcome.response 200 (some ⟨some "bye"⟩))).2.1
        (ReqOutcome.response 200 (some ⟨some "bye"⟩))).1 = some "bye" ∧
    (end_session (end_session ⟨some 1, some 1, some 7⟩
          (ReqOutcome.response 200 (some ⟨some "bye"⟩))).2.1
        (ReqOutcome.response 200 (some ⟨some "bye"⟩))).2.2 = 1 :=
  ⟨rfl, rfl, rfl⟩

/-- C1 (amended): end_session never writes any identity field; it
returns none with zero network calls exactly when session_id is falsy,
and whenever session_id is set it performs one network call — so a
second consecutive call repeats the end call rather than returning
none without network activity. -/
theorem end_session_state_unchanged (c : DnDClient) (o : ReqOutcome EndBody) :
    (end_session c o).2.1 = c ∧
    (pyTruthy c.session_id = false → end_session c o = (none, c, 0)) ∧
    (pyTruthy c.session_id = true → (end_session c o).2.2 = 1) := by
  refine ⟨?_, ?_, ?_⟩ <;>
    cases h : pyTruthy c.session_id <;>
      cases o with
      | netError => simp [end_session, h]
      | response status body =>
        cases body <;> simp [end_session, h] <;> split <;> simp

/-- C1 amended witness: an active session keeps its session id across
end_session and the call performs exactly one network call. -/
theorem end_session_state_unchanged_witness :
    (end_session ⟨some 1, some 1, some 7⟩ ReqOutcome.netError).2.1
        = ⟨some 1, some 1, some 7⟩ ∧
    (end_session ⟨some 1, some 1, some 7⟩ ReqOutcome.netError).2.2 = 1 :=
  ⟨(end_session_state_unchanged ⟨some 1, some 1, some 7⟩ ReqOutcome.netError).1,
   (end_session_state_unchanged ⟨some 1, some 1, some 7⟩ ReqOutcome.netError).2.2
     (by decide)⟩

/-- C6: with all identity fields set and a successful interact response
carrying a dm_response string, send_message returns that string with
every occurrence of the literal marker normalized to a newline by
pyReplaceBrNl, in one network call; in particular the marker string
"line1<br>line2" becomes exactly "line1\n" followed by "line2". -/
theorem send_message_br_normalized (c : DnDClient) (user_input : String)
    (status : Nat) (s : String)
    (hc : pyTruthy c.campaign_id = true) (hw : pyTruthy c.world_id = true)
    (hs : pyTruthy c.session_id = true) (hst : ¬ raisesForStatus status) :
    send_message c user_input (ReqOutcome.response status (some ⟨some s⟩))
      = (some (pyReplaceBrNl s), 1) ∧
    pyReplaceBrNl "line1<br>line2" = "line1\nline2" := by
  constructor
  · simp [send_message, hc, hw, hs, hst]
  · decide

/-- C6 witness: the round-trip of the claim, evaluated on an active
client: the remote dm_response "line1<br>line2" is returned as the
two-line string. -/
theorem send_message_br_normalized_witness :
    send_message ⟨some 1, some 1, some 7⟩ "look"
        (ReqOutcome.response 200 (some ⟨some "line1<br>line2"⟩))
      = (some "line1\nline2", 1) := by
  have h := send_message_br_normalized ⟨some 1, some 1, some 7⟩ "look" 200
    "line1<br>line2" (by decide) (by decide) (by decide) (by decide)
  rw [h.1, h.2]

/-- C8: list_sessions is total and never propagates a request failure:
every outcome on which the requests layer raises (network error, a
4xx/5xx status via raise_for_status, or an unparseable body) yields
the empty list, and a successful response yields the parsed records
unchanged, in order. -/
theorem list_sessions_failure_empty_success_id (status : Nat)
    (l : List Session) :
    list_sessions ReqOutcome.netError = [] ∧
    (∀ body, raisesForStatus status →
      list_sessions (ReqOutcome.response status body) = []) ∧
    list_sessions (ReqOutcome.response status none) = [] ∧
    (¬ raisesForStatus status →
      list_sessions (ReqOutcome.response status (some l)) = l) := by
  refine ⟨rfl, ?_, ?_, ?_⟩
  · intro body h
    simp [list_sessions, h]
  · by_cases h : raisesForStatus status <;> simp [list_sessions, h]
  · intro h
    simp [list_sessions, h]

/-- C8 witness: the scenario of the claim: a 200 response whose body is one
record with session_id 42 yields a one-element list whose single
element has session identifier 42. -/
theorem list_sessions_scenario_witness :
    list_sessions (ReqOutcome.response 200
        (some [⟨42, "2024-01-01T00:00:00Z"⟩]))
      = [⟨42, "2024-01-01T00:00:00Z"⟩] ∧
    (list_sessions (ReqOutcome.response 200
        (some [⟨42, "2024-01-01T00:00:00Z"⟩]))).length = 1 ∧
    ((list_sessions (ReqOutcome.response 200
        (some [⟨42, "2024-01-01T00:00:00Z"⟩]))).map Session.session_id)
      = [42] := by
  have h := (list_sessions_failure_empty_success_id 200
    [⟨42, "2024-01-01T00:00:00Z"⟩]).2.2.2 (by decide)
  exact ⟨h, by rw [h]; rfl, by rw [h]; rfl⟩

/-- C10: with all identity fields set and a successful interact
response whose body lacks the dm_response field, send_message returns
the empty string (not none), and the truthiness test of the interaction loop
test on that result is false, so no DM output is rendered. -/
theorem send_message_missing_dm_response_empty (c : DnDClient)
    (user_input : String) (status : Nat)
    (hc : pyTruthy c.campaign_id = true) (hw : pyTruthy c.world_id = true)
    (hs : pyTruthy c.session_id = true) (hst : ¬ raisesForStatus status) :
    send_message c user_input (ReqOutcome.response status (some ⟨none⟩))
      = (some "", 1) ∧
    pyTruthyStr (send_message c user_input
        (ReqOutcome.response status (some ⟨none⟩))).1 = false := by
  have h : send_message c user_input (ReqOutcome.response status (some ⟨none⟩))
      = (some "", 1) := by
    simp [send_message, hc, hw, hs, hst]
    decide
  exact ⟨h, by rw [h]; decide⟩

/-- C10 witness: an active client receiving a 200 response with no
dm_response key gets the empty string back, which the loop treats as
falsy. -/
theorem send_message_missing_dm_response_empty_witness :
    send_message ⟨some 1, some 1, some 7⟩ "look"
        (ReqOutcome.response 200 (some ⟨none⟩)) = (some "", 1) ∧
    pyTruthyStr (send_message ⟨some 1, some 1, some 7⟩ "look"
        (ReqOutcome.response 200 (some ⟨none⟩))).1 = false :=
  send_message_missing_dm_response_empty ⟨some 1, some 1, some 7⟩ "look" 200
    (by decide) (by decide) (by decide) (by decide)

/-- Auxiliary count: a trace made of sends followed by the single
finalization contains exactly one endCall action. -/
theorem count_endCall_of_sends (l : List String) :
    ((l.map fun i => MainAction.send (pyStrip i))
        ++ [MainAction.endCall]).count MainAction.endCall = 1 := by
  induction l with
  | nil => rfl
  | cons i rest ih =>
    simpa [List.count_cons] using ih

/-- C9: for every input sequence containing a case-insensitive quit or
exit token, the interaction loop dispatches exactly the inputs that
precede the first such token (nothing after it is processed) and the
whole run invokes end_session exactly once as finalization. -/
theorem main_loop_quit_ends_once (pre post : List String) (q : String)
    (hpre : ∀ i ∈ pre, isQuit i = false) (hq : isQuit q = true) :
    main_loop_trace (pre ++ q :: post)
      = (pre.map fun i => MainAction.send (pyStrip i)) ++ [MainAction.endCall] ∧
    (main_loop_trace (pre ++ q :: post)).count MainAction.endCall = 1 := by
  have htrace : main_loop_trace (pre ++ q :: post)
      = (pre.map fun i => MainAction.send (pyStrip i)) ++ [MainAction.endCall] := by
    induction pre with
    | nil => simp [main_loop_trace, hq]
    | cons i rest ih =>
      have hi : isQuit i = false := hpre i (by simp)
      have ih2 := ih fun j hj => hpre j (by simp [hj])
      simp [main_loop_trace, hi, ih2]
  exact ⟨htrace, by rw [htrace]; exact count_endCall_of_sends pre⟩

/-- C9 witness: one ordinary input, then the token "QUIT" (mixed case),
then a trailing input: the trace sends only the first input, never
touches the trailing one, and ends the session exactly once. -/
theorem main_loop_quit_ends_once_witness :
    main_loop_trace ["hello there", "QUIT", "later"]
      = (["hello there"].map fun i => MainAction.send (pyStrip i))
        ++ [MainAction.endCall] ∧
    (main_loop_trace ["hello there", "QUIT", "later"]).count
        MainAction.endCall = 1 :=
  main_loop_quit_ends_once ["hello there"] ["later"] "QUIT"
    (by decide) (by decide)

/-- Bounds for the polling loop against a service that never becomes
reachable: starting from any elapsed time t not past the deadline, the
loop returns false at an elapsed time that is at least the timeout and
strictly less than the timeout plus one 5-second poll interval. -/
theorem wait_for_server_loop_bounds (T : Int) :
    ∀ (n : Nat) (t : Int), (T - t).toNat ≤ n → t ≤ T →
      (wait_for_server_loop T (fun _ => false) t).1 = false ∧
      T ≤ (wait_for_server_loop T (fun _ => false) t).2 ∧
      (wait_for_server_loop T (fun _ => false) t).2 < T + 5 := by
  intro n
  induction n with
  | zero =>
    intro t hn ht
    have heq : t = T := by omega
    rw [wait_for_server_loop.eq_def]
    simp [show ¬ t < T by omega]
    omega
  | succ n ih =>
    intro t hn ht
    rw [wait_for_server_loop.eq_def]
    by_cases h : t < T
    · simp [h]
      by_cases h5 : t + 5 ≤ T
      · exact ih (t + 5) (by omega) h5
      · rw [wait_for_server_loop.eq_def]
        simp [show ¬ t + 5 < T by omega]
        omega
    · simp [h]
      omega

/-- C7: against a service that never becomes reachable,
wait_for_server terminates (it is a total function), returns false,
and does so after an elapsed time of at least the timeout and strictly
less than the timeout plus one 5-second poll interval, for every
nonnegative timeout. -/
theorem wait_for_server_timeout_bounds (T : Int) (hT : 0 ≤ T) :
    (wait_for_server (fun _ => false) T).1 = false ∧
    T ≤ (wait_for_server (fun _ => false) T).2 ∧
    (wait_for_server (fun _ => false) T).2 < T + 5 :=
  wait_for_server_loop_bounds T (T - 0).toNat 0 (Nat.le_refl _) hT

/-- C7 witness: with a 7-second timeout against a dead service the wait
returns false after at least 7 and less than 12 seconds of elapsed
time (concretely 10: two failed probes with 5-second sleeps). -/
theorem wait_for_server_timeout_bounds_witness :
    (wait_for_server (fun _ => false) 7).1 = false ∧
    (7 : Int) ≤ (wait_for_server (fun _ => false) 7).2 ∧
    (wait_for_server (fun _ => false) 7).2 < 7 + 5 :=
  wait_for_server_timeout_bounds 7 (by decide)
